import Mathlib

/-!
Verification of the mal (Make-a-Lisp) step6 interpreter: the value model,
the primitive library of `core.ts` (`ns`), and the evaluator loop of
`step6_file.ts` (`eval_` / `eval_ast`), embedded shallowly.

Conventions of the embedding:
- JS objects carry a `type` tag and a `value` payload; `MalType` mirrors
  that tagged universe.  Where the source observes JS *reference* equality
  of payload objects (`a.value === b.value` on atoms and functions), the
  constructor carries a natural-number identity standing for the object
  reference: two fields are `===`-equal exactly when the identities agree.
- Maps are association lists over the already-encoded string keys
  (`mal_to_map_key`'s output); JS object key iteration order is insertion
  order, which the list order mirrors; keys are distinct.
- Fallible code returns `Option`/`Except`.  A JS `TypeError` caused by
  touching `undefined` (reading `.type` of a missing value) is a distinct
  error from a mal-level thrown value.
-/

/-- The tagged value universe of the interpreter (spec section 3; `types.ts` is not
in `src/`, so payloads are modelled from the spec and from every use in
`core.ts`/`step6_file.ts`).
`atom cellId slotId`: `cellId` is the identity of the reference-cell object
itself, `slotId` the identity of the object currently held in its mutable
`value` slot (the `=` primitive reads only the latter).
`fnMal fnId envRef params body`: a closure as built by `fn*`: `fnId` is the
identity of the function payload object, `envRef` the index of the captured
environment frame, `params` the raw (unchecked) parameter forms, `body` the
unevaluated body.  `fnNative name` is a native from `core.ns`, created once
per name at bootstrap.  Both function kinds carry the JS tag `fn`. -/
inductive MalType where
  | nil
  | bool (b : Bool)
  | int (n : Int)
  | str (s : String)
  | sym (s : String)
  | key (s : String)
  | list (xs : List MalType)
  | vec (xs : List MalType)
  | map (kvs : List (String × MalType))
  | atom (cellId : Nat) (slotId : Nat)
  | fnNative (name : String)
  | fnMal (fnId : Nat) (envRef : Nat) (params : List MalType) (body : MalType)
deriving Repr, BEq

/-- The JS `type` tag of a value, as `core.ts` reads it in `a.type`. Both
function payload kinds live inside a value whose tag is `fn`. -/
def typeTag : MalType → String
  | .nil => "nil"
  | .bool _ => "bool"
  | .int _ => "int"
  | .str _ => "str"
  | .sym _ => "sym"
  | .key _ => "key"
  | .list _ => "list"
  | .vec _ => "vec"
  | .map _ => "map"
  | .atom _ _ => "atom"
  | .fnNative _ => "fn"
  | .fnMal _ _ _ _ => "fn"

/-- Whether the value is a sequence (list or vector), the pair of kinds `=`
treats cross-compatibly. -/
def seqKind : MalType → Bool
  | .list _ => true
  | .vec _ => true
  | _ => false

/-- Lookup in a JS object modelled as an association list in insertion
order (first match wins; keys are distinct in every object the program
builds). -/
def lookupTable : List (String × MalType) → String → Option MalType
  | [], _ => none
  | (k, v) :: rest, key => if k = key then some v else lookupTable rest key

/-- Modelled from the spec (`types.ts` is not in `src/`): `t.toInt` returns
the integer payload and fails with a type error otherwise (spec section 4.3:
arithmetic operands must be integers).  The payload is taken as an exact
signed integer per the spec's data model (section 3). -/
def toInt : MalType → Option Int
  | .int n => some n
  | _ => none

/-- Modelled from the spec (`types.ts` is not in `src/`): `t.isListOrVec`
returns the element list of a list or vector and fails with a type error
otherwise (spec section 7, TypeMismatch). -/
def isListOrVec : MalType → Option (List MalType)
  | .list xs => some xs
  | .vec xs => some xs
  | _ => none

/-- Modelled from the spec (`types.ts` is not in `src/`): `t.isList` accepts
a list only. -/
def isList : MalType → Option (List MalType)
  | .list xs => some xs
  | _ => none

/-- Modelled from the spec (`types.ts` is not in `src/`): `t.isSym` accepts a
symbol only, returning its name. -/
def isSym : MalType → Option String
  | .sym s => some s
  | _ => none

mutual
/-- The structural-equality primitive `ns['=']` of `core.ts` (lines 17-39).
`some b` is the JS boolean result; `none` is the JS `TypeError` raised when a
recursive call receives `undefined` — which happens exactly when two maps
have the same number of keys but a key of the first is missing from the
second (`b_[k]` is `undefined` and every branch of `=` then reads `b.type`).
The final same-tag branch compares payloads with `===`: value equality for
the primitive payloads, identity for the objects held by atoms (`slotId`)
and functions (`fnId`, or the once-created native payload per name). -/
def malEq : MalType → MalType → Option Bool
  | .list as, .list bs => if as.length ≠ bs.length then some false else eqSeq as bs
  | .list as, .vec bs => if as.length ≠ bs.length then some false else eqSeq as bs
  | .vec as, .list bs => if as.length ≠ bs.length then some false else eqSeq as bs
  | .vec as, .vec bs => if as.length ≠ bs.length then some false else eqSeq as bs
  | .map akvs, .map bkvs =>
      if akvs.length ≠ bkvs.length then some false else eqEntries akvs bkvs
  | .nil, .nil => some true
  | .bool x, .bool y => some (x == y)
  | .int x, .int y => some (x == y)
  | .str x, .str y => some (x == y)
  | .sym x, .sym y => some (x == y)
  | .key x, .key y => some (x == y)
  | .atom _ sx, .atom _ sy => some (sx == sy)
  | .fnNative nx, .fnNative ny => some (nx == ny)
  | .fnMal fx _ _ _, .fnMal fy _ _ _ => some (fx == fy)
  | _, _ => some false

/-- Element-wise `=` over two sequences of equal length (`a_.every((_, i) =>
ns['='](a_[i], b_[i]).value)`), short-circuiting on the first `false`. -/
def eqSeq : List MalType → List MalType → Option Bool
  | [], _ => some true
  | a :: as, b :: bs =>
      match malEq a b with
      | none => none
      | some false => some false
      | some true => eqSeq as bs
  | _ :: _, [] => some true

/-- Key-wise `=` over map entries (`a_keys.every((k) => ns['='](a_[k],
b_[k]).value)`): for each key of the first map in insertion order, compare
its value with the second map's value at that key; a key missing from the
second map makes the recursive `=` receive `undefined` and crash (`none`). -/
def eqEntries : List (String × MalType) → List (String × MalType) → Option Bool
  | [], _ => some true
  | (k, va) :: rest, bkvs =>
      match lookupTable bkvs k with
      | none => none
      | some vb =>
          match malEq va vb with
          | none => none
          | some false => some false
          | some true => eqEntries rest bkvs
end

/-- The division primitive `ns['/']` of `core.ts` (line 15):
`t.int(Math.floor(t.toInt(a) / t.toInt(b)))`.  On exact integers
`Math.floor` of the true quotient is floor division, `Int.fdiv`.  (For
`b = 0` JS produces an infinity; the spec and the claims restrict division
to nonzero divisors, and `Int.fdiv a 0 = 0` is never relied on.) -/
def malDiv (a b : MalType) : Option MalType :=
  match toInt a, toInt b with
  | some x, some y => some (.int (Int.fdiv x y))
  | _, _ => none

/-- The `count` primitive of `core.ts` (lines 58-64): the length of a list
or vector; the type error thrown by `isListOrVec` on anything else is caught
and `0` returned. -/
def count (arg : MalType) : MalType :=
  match isListOrVec arg with
  | some xs => .int xs.length
  | none => .int 0

/-- An error raised by a primitive: a type mismatch from a `t.isX`/`t.toX`
check (modelled from the spec, section 7, `types.ts` not in `src/`), or a
mal value thrown with JS `throw` (the `throw` primitive, `nth`'s range
error). -/
inductive NativeErr where
  | typeMismatch (expected : String)
  | thrown (v : MalType)
deriving Repr, BEq

/-- The `nth` primitive of `core.ts` (lines 65-72): take the sequence's
elements and the integer index; an index `≥ length` throws the mal string
"nth: index out of range"; otherwise JS returns `values[i]` — the element
for `0 ≤ i < length`, and `undefined` (modelled `none`) for a negative
index. -/
def nth (arg idx : MalType) : Except NativeErr (Option MalType) :=
  match isListOrVec arg with
  | none => .error (.typeMismatch "list or vec")
  | some values =>
      match toInt idx with
      | none => .error (.typeMismatch "int")
      | some i =>
          if (values.length : Int) ≤ i then
            .error (.thrown (.str "nth: index out of range"))
          else if i < 0 then .ok none
          else .ok (values.get? i.toNat)

example : malEq (.list [.int 1, .int 2]) (.vec [.int 1, .int 2]) = some true := rfl
example : malEq (.map [("a", .int 1)]) (.map [("b", .int 1)]) = none := rfl
example : malEq (.map [("a", .int 1), ("b", .int 2)])
    (.map [("b", .int 2), ("a", .int 1)]) = some true := rfl
example : malDiv (.int (-7)) (.int 2) = some (.int (-4)) := rfl
example : nth (.list [.int 5]) (.int 1) =
    .error (.thrown (.str "nth: index out of range")) := rfl

/-- An environment frame (spec section 4.1; `env.ts` is not in `src/`, so the
frame structure is modelled from the spec): a mutable symbol table with an
optional parent link.  Frames live in a store (`EvalState.frames`) and are
referred to by index, which models the JS heap sharing of frames between
closures and call activations. -/
structure Frame where
  parent : Option Nat
  table : List (String × MalType)
deriving Repr, BEq

/-- The mutable parts of the interpreter the claims observe: the store of
environment frames, and the counter handing out function-object
identities. -/
structure EvalState where
  frames : List Frame
  nextFnId : Nat
deriving Repr, BEq

/-- An evaluation error.  `unboundSymbol` is `env.get`'s failure (spec
section 7, UnboundSymbol; `env.ts` is not in `src/`).  `typeMismatch` is a
`t.isX` check failing.  `thrown` is a thrown mal value.  `hostCrash` is a JS
`TypeError` from touching `undefined` (a malformed special form).
`unmodelledNative` marks a native this embedding does not model (none is
applied by any verified program).  `outOfGas` is a model artifact: the step
budget of the embedding ran out (the JS loop has no such budget).
`stackOverflow` models exhaustion of the JS call stack: every *nested*
(non-tail) evaluation decrements the depth budget, while the TCO `continue`
of the loop keeps it unchanged. -/
inductive EvalErr where
  | unboundSymbol (s : String)
  | typeMismatch (expected : String)
  | thrown (v : MalType)
  | hostCrash
  | unmodelledNative (name : String)
  | outOfGas
  | stackOverflow
deriving Repr, BEq

/-- Overwrite-or-append in a JS object: assigning to an existing key keeps
its position, a new key is appended (JS property insertion order). -/
def setTable : List (String × MalType) → String → MalType → List (String × MalType)
  | [], k, v => [(k, v)]
  | (k0, v0) :: rest, k, v =>
      if k0 = k then (k0, v) :: rest else (k0, v0) :: setTable rest k v

/-- Modelled from the spec, section 4.1 (`env.ts` is not in `src/`):
`env.set` inserts or overwrites a binding in the current frame only, never
touching ancestors. -/
def envSet (st : EvalState) (i : Nat) (k : String) (v : MalType) : EvalState :=
  match st.frames[i]? with
  | none => st
  | some fr =>
      { st with frames := st.frames.set i { fr with table := setTable fr.table k v } }

/-- Modelled from the spec, section 4.1 (`env.ts` is not in `src/`):
`envM.init(parent, binds, args)` creates a new frame with the given parent,
binding parameters positionally.  The new frame is appended to the store;
its index is the store's previous length. -/
def pushFrame (st : EvalState) (parent : Option Nat)
    (table : List (String × MalType)) : EvalState :=
  { st with frames := st.frames ++ [{ parent := parent, table := table }] }

/-- Modelled from the spec, section 4.1 (`env.ts` is not in `src/`):
`env.get` searches the current frame, then each ancestor toward the root;
`none` stands for the unbound-symbol failure.  `hops` bounds the parent
walk; callers pass the store size, which every parent chain the program
builds is shorter than (each frame's parent precedes it in the store). -/
def envGet (frames : List Frame) : Nat → Nat → String → Option MalType
  | 0, _, _ => none
  | hops+1, i, k =>
    match frames[i]? with
    | none => none
    | some fr =>
        match lookupTable fr.table k with
        | some v => some v
        | none =>
            match fr.parent with
            | none => none
            | some p => envGet frames hops p k

/-- The head of a form as the evaluator's `switch (ast.value[0].value)` reads
it: the switch compares the JS payload against the special-form strings, so
any string-valued payload (symbol, string, keyword) can match. -/
def formName : MalType → Option String
  | .sym s => some s
  | .str s => some s
  | .key s => some s
  | _ => none

/-- The `if` form's condition test, `cond !== false && cond !== null` on the
payload: only nil (payload `null`) and boolean false are falsy. -/
def truthy : MalType → Bool
  | .nil => false
  | .bool false => false
  | _ => true

/-- Integer arithmetic native: both operands must be integers (`t.toInt`). -/
def arith2 (f : Int → Int → Int) (a b : MalType) : Except EvalErr MalType :=
  match toInt a, toInt b with
  | some x, some y => .ok (.int (f x y))
  | _, _ => .error (.typeMismatch "int")

/-- Integer comparison native. -/
def cmp2 (f : Int → Int → Bool) (a b : MalType) : Except EvalErr MalType :=
  match toInt a, toInt b with
  | some x, some y => .ok (.bool (f x y))
  | _, _ => .error (.typeMismatch "int")

/-- Dispatch of a native function by name, mirroring the `core.ns` entries
the verified programs apply (`=`, arithmetic, comparisons, `throw`, `list`,
`count`).  Natives are stateless here; a native this file does not model
answers with the explicit `unmodelledNative` error and is applied by no
verified program.  A JS call with too few arguments passes `undefined`,
which every modelled native dereferences — a `hostCrash` (for `count` the
`try`/`catch` turns that crash into `0`). -/
def callNative (name : String) (args : List MalType) : Except EvalErr MalType :=
  match name with
  | "=" =>
      match args with
      | a :: b :: _ =>
          match malEq a b with
          | some r => .ok (.bool r)
          | none => .error .hostCrash
      | _ => .error .hostCrash
  | "+" => match args with | a :: b :: _ => arith2 (· + ·) a b | _ => .error .hostCrash
  | "-" => match args with | a :: b :: _ => arith2 (· - ·) a b | _ => .error .hostCrash
  | "*" => match args with | a :: b :: _ => arith2 (· * ·) a b | _ => .error .hostCrash
  | "/" =>
      match args with
      | a :: b :: _ =>
          match malDiv a b with
          | some v => .ok v
          | none => .error (.typeMismatch "int")
      | _ => .error .hostCrash
  | ">" => match args with | a :: b :: _ => cmp2 (fun x y => decide (x > y)) a b | _ => .error .hostCrash
  | ">=" => match args with | a :: b :: _ => cmp2 (fun x y => decide (x ≥ y)) a b | _ => .error .hostCrash
  | "<" => match args with | a :: b :: _ => cmp2 (fun x y => decide (x < y)) a b | _ => .error .hostCrash
  | "<=" => match args with | a :: b :: _ => cmp2 (fun x y => decide (x ≤ y)) a b | _ => .error .hostCrash
  | "throw" => match args with | a :: _ => .error (.thrown a) | _ => .error .hostCrash
  | "list" => .ok (.list args)
  | "count" => match args with | a :: _ => .ok (count a) | _ => .ok (.int 0)
  | other => .error (.unmodelledNative other)

/-- The parameter symbols of a closure at call time
(`params.value.map(t.isSym)`): every parameter form must be a symbol. -/
def symNames : List MalType → Option (List String)
  | [] => some []
  | .sym s :: rest => (symNames rest).map (fun ns => s :: ns)
  | _ => none

mutual
/-- The evaluator loop `eval_` of `step6_file.ts` (lines 37-145).  `gas`
bounds the number of model steps (each call of any of the mutually recursive
functions consumes one unit; a model artifact, the JS loop is unbounded).
`depth` models the JS call stack: a nested (non-tail) evaluation is a
recursive JS call and receives `depth` one smaller, while the `// TCO`
branches — `let*` body, `do` tail, `if` branches, and closure application —
rewrite `(ast, env)` and `continue` the loop in the same JS frame, so they
keep the entered depth.  A missing element of a malformed form is JS
`undefined`; the first `.type` read on it raises a `TypeError`
(`hostCrash`). -/
def eval_ (gas depth : Nat) (st : EvalState) (ast : MalType) (env : Nat) :
    Except EvalErr (EvalState × MalType) :=
  match gas, depth with
  | 0, _ => .error .outOfGas
  | _+1, 0 => .error .stackOverflow
  | g+1, d+1 =>
    match ast with
    | .list vals =>
      match vals with
      | [] => .ok (st, .list [])
      | head :: rest =>
        match formName head with
        | some "def!" =>
          match rest[0]? with
          | none => .error .hostCrash
          | some s1 =>
            match isSym s1 with
            | none => .error (.typeMismatch "sym")
            | some name =>
              match rest[1]? with
              | none => .error .hostCrash
              | some e =>
                match eval_ g d st e env with
                | .error err => .error err
                | .ok (st2, v) => .ok (envSet st2 env name v, v)
        | some "let*" =>
          let letEnv := st.frames.length
          let stPushed := pushFrame st (some env) []
          match rest[0]? with
          | none => .error .hostCrash
          | some b =>
            match isList b with
            | none => .error (.typeMismatch "list")
            | some bs =>
              match evalBinds g d stPushed bs letEnv with
              | .error err => .error err
              | .ok st2 =>
                match rest[1]? with
                | none => .error .hostCrash
                | some body => eval_ g (d+1) st2 body letEnv
        | some "do" =>
          match evalDoInit g d st rest.dropLast env with
          | .error err => .error err
          | .ok st2 => eval_ g (d+1) st2 (rest.getLastD head) env
        | some "if" =>
          match rest[0]? with
          | none => .error .hostCrash
          | some c =>
            match eval_ g d st c env with
            | .error err => .error err
            | .ok (st2, v) =>
              if truthy v then
                match rest[1]? with
                | none => .error .hostCrash
                | some th => eval_ g (d+1) st2 th env
              else
                match rest[2]? with
                | none => .ok (st2, .nil)
                | some el => eval_ g (d+1) st2 el env
        | some "fn*" =>
          match rest[0]? with
          | none => .error .hostCrash
          | some p =>
            match isListOrVec p with
            | none => .error (.typeMismatch "list or vec")
            | some ps =>
              match rest[1]? with
              | none => .error .hostCrash
              | some body =>
                .ok ({ st with nextFnId := st.nextFnId + 1 },
                     .fnMal st.nextFnId env ps body)
        | _ =>
          match eval_ast g d st ast env with
          | .error err => .error err
          | .ok (st2, evaled) =>
            match evaled with
            | .list (f :: args) =>
              match f with
              | .fnNative name =>
                match callNative name args with
                | .error err => .error err
                | .ok v => .ok (st2, v)
              | .fnMal _ cenv ps body =>
                match symNames ps with
                | none => .error (.typeMismatch "sym")
                | some binds =>
                  eval_ g (d+1) (pushFrame st2 (some cenv) (binds.zip args))
                    body st2.frames.length
              | _ => .error (.typeMismatch "fn")
            | _ => .error .hostCrash
    | notList => eval_ast g d st notList env
termination_by structural gas

/-- `eval_ast` of `step6_file.ts` (lines 14-35): a symbol resolves through
the environment chain; a list or vector evaluates every element left to
right into a new sequence of the same kind; a map evaluates every value,
keys unchanged; anything else evaluates to itself. -/
def eval_ast (gas depth : Nat) (st : EvalState) (ast : MalType) (env : Nat) :
    Except EvalErr (EvalState × MalType) :=
  match gas, depth with
  | 0, _ => .error .outOfGas
  | _+1, 0 => .error .stackOverflow
  | g+1, _d+1 =>
    match ast with
    | .sym s =>
        match envGet st.frames st.frames.length env s with
        | some v => .ok (st, v)
        | none => .error (.unboundSymbol s)
    | .list xs =>
        match evalSeq g _d st xs env with
        | .error err => .error err
        | .ok (st2, ys) => .ok (st2, .list ys)
    | .vec xs =>
        match evalSeq g _d st xs env with
        | .error err => .error err
        | .ok (st2, ys) => .ok (st2, .vec ys)
    | .map kvs =>
        match evalEntries g _d st kvs env with
        | .error err => .error err
        | .ok (st2, kvs2) => .ok (st2, .map kvs2)
    | other => .ok (st, other)
termination_by structural gas

/-- Left-to-right evaluation of sequence elements inside `eval_ast`'s own JS
frame (its `.map` callback): each element is a nested `eval_` call at the
depth `eval_ast` passes down. -/
def evalSeq (gas depth : Nat) (st : EvalState) (xs : List MalType) (env : Nat) :
    Except EvalErr (EvalState × List MalType) :=
  match gas with
  | 0 => .error .outOfGas
  | g+1 =>
    match xs with
    | [] => .ok (st, [])
    | x :: rest =>
      match eval_ g depth st x env with
      | .error err => .error err
      | .ok (st2, y) =>
        match evalSeq g depth st2 rest env with
        | .error err => .error err
        | .ok (st3, ys) => .ok (st3, y :: ys)
termination_by structural gas

/-- Evaluation of a map literal's values inside `eval_ast`, keys kept. -/
def evalEntries (gas depth : Nat) (st : EvalState)
    (kvs : List (String × MalType)) (env : Nat) :
    Except EvalErr (EvalState × List (String × MalType)) :=
  match gas with
  | 0 => .error .outOfGas
  | g+1 =>
    match kvs with
    | [] => .ok (st, [])
    | (k, x) :: rest =>
      match eval_ g depth st x env with
      | .error err => .error err
      | .ok (st2, y) =>
        match evalEntries g depth st2 rest env with
        | .error err => .error err
        | .ok (st3, ys) => .ok (st3, (k, y) :: ys)
termination_by structural gas

/-- The `let*` binding loop (lines 61-65): for each `sym expr` pair in order,
check the symbol, evaluate the expression in the *new* frame — earlier
bindings of the same `let*` already visible — and bind it there at once.
An odd binding list passes `undefined` to `eval_` (`hostCrash`). -/
def evalBinds (gas depth : Nat) (st : EvalState) (bs : List MalType) (env : Nat) :
    Except EvalErr EvalState :=
  match gas with
  | 0 => .error .outOfGas
  | g+1 =>
    match bs with
    | [] => .ok st
    | s :: rest =>
      match isSym s with
      | none => .error (.typeMismatch "sym")
      | some name =>
        match rest with
        | [] => .error .hostCrash
        | e :: rest2 =>
          match eval_ g depth st e env with
          | .error err => .error err
          | .ok (st2, v) => evalBinds g depth (envSet st2 env name v) rest2 env
termination_by structural gas

/-- The `do` form's loop over all but the last element (lines 73-77):
evaluate each for effect, discarding results. -/
def evalDoInit (gas depth : Nat) (st : EvalState) (es : List MalType) (env : Nat) :
    Except EvalErr EvalState :=
  match gas with
  | 0 => .error .outOfGas
  | g+1 =>
    match es with
    | [] => .ok st
    | e :: rest =>
      match eval_ g depth st e env with
      | .error err => .error err
      | .ok (st2, _) => evalDoInit g depth st2 rest env
termination_by structural gas
end

/-- The names of `core.ns` in definition order (`core.ts` lines 7-177).
`core_env()` binds each to a native function value in the root frame. -/
def nsNames : List String :=
  ["throw", "+", "-", "*", "/", "=", ">", ">=", "<", "<=",
   "cons", "concat", "list", "list?", "empty?", "count", "nth", "first", "rest",
   "apply", "map", "map?", "hash-map", "assoc", "dissoc", "get", "contains?",
   "keys", "vals", "sequential?", "vector?", "vector", "vec", "symbol", "keyword",
   "nil?", "symbol?", "keyword?", "true?", "false?", "read-string", "slurp",
   "pr-str", "str", "prn", "println", "atom", "atom?", "deref", "reset!", "swap!"]

/-- The body of the bootstrap definition `(def! not (fn* (a) (if a false
true)))` evaluated by `core_env()`. -/
def notBody : MalType := .list [.sym "if", .sym "a", .bool false, .bool true]

/-- The `not` closure: the first function object the process allocates
(identity 0), capturing the root frame (index 0). -/
def notClosure : MalType := .fnMal 0 0 [.sym "a"] notBody

/-- The body of the bootstrap definition of `load-file` evaluated by
`build_env()`. -/
def loadFileBody : MalType :=
  .list [.sym "eval",
    .list [.sym "read-string",
      .list [.sym "str", .str "(do ", .list [.sym "slurp", .sym "f"],
        .str "\nnil)"]]]

/-- The `load-file` closure: the second function object (identity 1),
capturing the REPL frame (index 1). -/
def loadFileClosure : MalType := .fnMal 1 1 [.sym "f"] loadFileBody

/-- The root frame after `core_env()`: every `core.ns` native bound in
definition order, then `not` (bound by the bootstrap `def!`). -/
def coreFrame : Frame :=
  { parent := none,
    table := nsNames.map (fun n => (n, .fnNative n)) ++ [("not", notClosure)] }

/-- The REPL frame after `build_env()` and `main`'s `*ARGV*` binding (no
file arguments): child of the root frame, holding `eval`, `load-file` and
an empty `*ARGV*` list. -/
def replFrame : Frame :=
  { parent := some 0,
    table := [("eval", .fnNative "eval"), ("load-file", loadFileClosure),
      ("*ARGV*", .list [])] }

/-- The interpreter state in which the REPL evaluates input lines: the two
bootstrap frames, the next function identity being 2 (`not` took 0,
`load-file` took 1).  REPL input is evaluated in frame 1. -/
def state0 : EvalState := { frames := [coreFrame, replFrame], nextFnId := 2 }

/-- The body of the canonical tail-recursive counter,
`(fn* (n) (if (= n 0) 0 (loop (- n 1))))`: the recursive call is the final
expression of the `if` chain. -/
def loopBody : MalType :=
  .list [.sym "if", .list [.sym "=", .sym "n", .int 0], .int 0,
    .list [.sym "loop", .list [.sym "-", .sym "n", .int 1]]]

/-- The REPL line defining the counter:
`(def! loop (fn* (n) (if (= n 0) 0 (loop (- n 1)))))`. -/
def loopDef : MalType :=
  .list [.sym "def!", .sym "loop",
    .list [.sym "fn*", .list [.sym "n"], loopBody]]

/-- The closure `loopDef` creates: function identity 2, capturing the REPL
frame (index 1). -/
def loopClosure : MalType := .fnMal 2 1 [.sym "n"] loopBody

/-- The REPL frame after `loopDef` ran: `def!` appended the `loop` binding
to frame 1. -/
def replFrameLoop : Frame :=
  { parent := some 0, table := replFrame.table ++ [("loop", loopClosure)] }

/-- The interpreter state after `loopDef` ran in the REPL. -/
def stateLoop : EvalState :=
  { frames := [coreFrame, replFrameLoop], nextFnId := 3 }

/-- The REPL line `(loop n)`. -/
def callLoop (n : Nat) : MalType := .list [.sym "loop", .int n]

/-- The REPL line `(let* (x 1) (let* (x 2) x))` of the shadowing property. -/
def shadowProgram : MalType :=
  .list [.sym "let*", .list [.sym "x", .int 1],
    .list [.sym "let*", .list [.sym "x", .int 2], .sym "x"]]

/-- The REPL line `(let* (a 1 b a) b)`: the second binding's expression
reads the first binding of the same `let*`. -/
def seqVisProgram : MalType :=
  .list [.sym "let*", .list [.sym "a", .int 1, .sym "b", .sym "a"], .sym "b"]

/-- The REPL line `(do)`: a `do` form with no body expression. -/
def emptyDo : MalType := .list [.sym "do"]

/-- The call frame the loop allocates per iteration: `n` bound under the
REPL frame. -/
def nFrame (v : MalType) : Frame := { parent := some 1, table := [("n", v)] }

/-- The interpreter state during an iteration of the loop: the two
bootstrap frames (with `loop` defined), the frames of earlier iterations
(`extra`, irrelevant garbage the TCO loop leaves behind), and the current
call frame on top. -/
def loopState (extra : List Frame) (fid : Nat) (v : MalType) : EvalState :=
  { frames := coreFrame :: replFrameLoop :: (extra ++ [nFrame v]),
    nextFnId := fid }

/-- The default (application) branch of the evaluator loop, named so the
per-head step equations below can share it: evaluate the whole form via
`eval_ast`, then invoke a native directly or tail-call into a closure body
(same depth — the TCO rewrite).  This is the `default:` case of `eval_`
verbatim; the equations below prove it so by `rfl`. -/
def applyStep (g d : Nat) (st : EvalState) (ast : MalType) (env : Nat) :
    Except EvalErr (EvalState × MalType) :=
  match eval_ast g d st ast env with
  | .error err => .error err
  | .ok (st2, evaled) =>
    match evaled with
    | .list (f :: args) =>
      match f with
      | .fnNative name =>
        match callNative name args with
        | .error err => .error err
        | .ok v => .ok (st2, v)
      | .fnMal _ cenv ps body =>
        match symNames ps with
        | none => .error (.typeMismatch "sym")
        | some binds =>
          eval_ g (d+1) (pushFrame st2 (some cenv) (binds.zip args))
            body st2.frames.length
      | _ => .error (.typeMismatch "fn")
    | _ => .error .hostCrash

/-! ## Helper lemmas -/

/-- Floor division is invariant under negating both operands. -/
theorem fdiv_neg_neg (a b : Int) : Int.fdiv (-a) (-b) = Int.fdiv a b := by
  rcases a with (_ | m) | m <;> rcases b with (_ | n) | n <;>
    first
    | rfl
    | simp only [show (Int.ofNat 0 : Int) = 0 from rfl, neg_zero, Int.fdiv_zero]

/-- For a nonzero divisor, `Int.fdiv` is the floor of the exact rational
quotient. -/
theorem fdiv_eq_floor (a b : Int) (hb : b ≠ 0) :
    Int.fdiv a b = ⌊(a : ℚ) / (b : ℚ)⌋ := by
  rcases lt_or_gt_of_ne hb with hneg | hpos
  · rw [← fdiv_neg_neg a b]
    have hb2 : (0 : ℤ) ≤ -b := by omega
    lift -b to ℕ using hb2 with n hn
    rw [Int.fdiv_eq_ediv _ (Int.natCast_nonneg n)]
    rw [show ((a : ℚ) / (b : ℚ)) = ((-a : ℤ) : ℚ) / ((n : ℤ) : ℚ) by
      rw [hn]; push_cast; rw [neg_div_neg_eq]]
    rw [show (((n : ℤ)) : ℚ) = (n : ℚ) by push_cast; ring]
    exact (Rat.floor_intCast_div_natCast (-a) n).symm
  · lift b to ℕ using hpos.le with n hn
    rw [Int.fdiv_eq_ediv _ (Int.natCast_nonneg n)]
    rw [show (((n : ℤ)) : ℚ) = (n : ℚ) by push_cast; ring]
    exact (Rat.floor_intCast_div_natCast a n).symm

/-- Pointwise-true `=` on elements makes `eqSeq` true. -/
theorem eqSeq_of_forall₂ {as bs : List MalType}
    (h : List.Forall₂ (fun a b => malEq a b = some true) as bs) :
    eqSeq as bs = some true := by
  induction h with
  | nil => rfl
  | cons h1 _h2 ih => simp [eqSeq, h1, ih]

/-! ## The claims -/

/-- C1: the claim says `=` is total and that two maps are equal exactly when
their key sets agree and each mapped value is recursively equal.  The code
violates totality: on two maps with the same number of keys but different
key sets, the lookup `b_[k]` yields `undefined` and the recursive `=` reads
`.type` of `undefined`, so `(= (hash-map "a" 1) (hash-map "b" 1))` crashes
with a JS `TypeError` instead of returning false.  This theorem evaluates
the embedded `=` at that failing input (`none` is the crash). -/
theorem map_equality_crashes_on_disjoint_keys :
    malEq (.map [("a", .int 1)]) (.map [("b", .int 1)]) = none := rfl

/-- C3: for every pair of integers with nonzero divisor, the `/` primitive
returns the floor of the exact rational quotient (truncation toward
negative infinity); in particular `(/ -7 2)` is `-4`, not `-3`. -/
theorem div_is_floor_division :
    (∀ a b : Int, b ≠ 0 →
        malDiv (.int a) (.int b) = some (.int ⌊(a : ℚ) / (b : ℚ)⌋))
    ∧ malDiv (.int (-7)) (.int 2) = some (.int (-4)) := by
  constructor
  · intro a b hb
    simp [malDiv, toInt, fdiv_eq_floor a b hb]
  · rfl

/-- Witness for C3 at the concrete input `(/ -7 2)`. -/
theorem div_is_floor_division_witness :
    malDiv (.int (-7)) (.int 2) = some (.int ⌊((-7 : Int) : ℚ) / ((2 : Int) : ℚ)⌋) :=
  div_is_floor_division.1 (-7) 2 (by decide)

/-- C4: `=` on a list and a vector with pairwise-equal elements returns
true (the list/vector cross-compatibility), and on any two values of
mismatched variant kinds outside the list/vector pair it returns false
(e.g. the integer 1 and the string "1"). -/
theorem eq_cross_seq_true_and_mismatched_kinds_false :
    (∀ as bs : List MalType,
        List.Forall₂ (fun a b => malEq a b = some true) as bs →
        malEq (.list as) (.vec bs) = some true)
    ∧ (∀ a b : MalType, typeTag a ≠ typeTag b →
        ¬(seqKind a = true ∧ seqKind b = true) → malEq a b = some false) := by
  constructor
  · intro as bs h
    have hlen := h.length_eq
    simp [malEq, hlen, eqSeq_of_forall₂ h]
  · intro a b hne hseq
    cases a <;> cases b <;> simp_all [malEq, typeTag, seqKind]

/-- Witness for C4: `(= (list 1 2 3) (vector 1 2 3))` is true and
`(= 1 "1")` is false. -/
theorem eq_cross_seq_witness :
    malEq (.list [.int 1, .int 2, .int 3]) (.vec [.int 1, .int 2, .int 3])
      = some true
    ∧ malEq (.int 1) (.str "1") = some false :=
  ⟨eq_cross_seq_true_and_mismatched_kinds_false.1 _ _
      (List.Forall₂.cons rfl (List.Forall₂.cons rfl
        (List.Forall₂.cons rfl List.Forall₂.nil))),
    eq_cross_seq_true_and_mismatched_kinds_false.2 _ _ (by decide) (by decide)⟩

/-- C7: for every list or vector and integer index, `nth` fails with the
IndexOutOfRange error when the index is at least the length, and returns
the zero-based element when `0 ≤ i < length`. -/
theorem nth_out_of_range_and_in_range :
    ∀ (xs : List MalType) (s : MalType) (i : Int),
      s = .list xs ∨ s = .vec xs →
      ((xs.length : Int) ≤ i →
          nth s (.int i) = .error (.thrown (.str "nth: index out of range")))
      ∧ (∀ v, 0 ≤ i → i < (xs.length : Int) → xs[i.toNat]? = some v →
          nth s (.int i) = .ok (some v)) := by
  intro xs s i hs
  have hseq : isListOrVec s = some xs := by
    rcases hs with rfl | rfl <;> rfl
  constructor
  · intro hge
    simp [nth, hseq, toInt, hge]
  · intro v h0 hlt hv
    simp [nth, hseq, toInt, hv, not_le.mpr hlt, not_lt.mpr h0]

/-- Witness for C7: `(nth (list 1 2 3) 3)` raises the range error and
`(nth (list 1 2 3) 1)` returns 2. -/
theorem nth_witness :
    nth (.list [.int 1, .int 2, .int 3]) (.int 3)
      = .error (.thrown (.str "nth: index out of range"))
    ∧ nth (.list [.int 1, .int 2, .int 3]) (.int 1) = .ok (some (.int 2)) :=
  ⟨(nth_out_of_range_and_in_range [.int 1, .int 2, .int 3] _ 3 (Or.inl rfl)).1
      (by decide),
    (nth_out_of_range_and_in_range [.int 1, .int 2, .int 3] _ 1 (Or.inl rfl)).2
      (.int 2) (by decide) (by decide) rfl⟩

/-- C8: `count` of any value that is not a list or vector is the integer 0
(the type error is caught), and of a list or vector it is the length. -/
theorem count_lenient_semantics :
    ∀ v : MalType,
      (typeTag v ≠ "list" → typeTag v ≠ "vec" → count v = .int 0)
      ∧ (∀ xs, v = .list xs ∨ v = .vec xs → count v = .int xs.length) := by
  intro v
  constructor
  · intro h1 h2
    cases v <;> simp_all [count, isListOrVec, typeTag]
  · intro xs h
    rcases h with rfl | rfl <;> rfl

/-- Witness for C8: `(count 5)` is 0 and `(count (list nil nil))` is 2. -/
theorem count_witness :
    count (.int 5) = .int 0 ∧ count (.list [.nil, .nil]) = .int 2 :=
  ⟨(count_lenient_semantics (.int 5)).1 (by decide) (by decide),
    (count_lenient_semantics (.list [.nil, .nil])).2 [.nil, .nil] (Or.inl rfl)⟩

/-- C9 counterexample: the claim says two distinct reference cells are
*never* `=`-equal, even with equal contents.  But the code compares
`a.value === b.value` — the contents by object identity, not the cells —
so two distinct cells (identities 0 and 1) holding the *same* content
object (identity 5, certainly an equal content) compare equal.  Reachable
in the language: `(def! x 1) (= (atom x) (atom x))` gives true. -/
theorem atom_eq_counterexample :
    malEq (.atom 0 5) (.atom 1 5) = some true := rfl

/-- C9 amended: `=` on two reference cells compares the objects currently
held in their slots by reference identity; the cells' own identities are
never consulted.  Distinct cells sharing their content object are equal;
cells holding distinct content objects are unequal even when the contents
are structurally equal. -/
theorem atom_eq_is_content_identity :
    ∀ c1 s1 c2 s2 : Nat, malEq (.atom c1 s1) (.atom c2 s2) = some (s1 == s2) := by
  intro c1 s1 c2 s2
  rfl

/-- C5: `let*` creates a child frame and binds sequentially (a later
binding expression sees the earlier bindings: `(let* (a 1 b a) b)` is 1);
an inner binding shadows an outer one without modifying the outer frame:
`(let* (x 1) (let* (x 2) x))` is 2, the inner frame (index 3, a child of
the outer frame 2) holds `x = 2`, and after evaluation the outer `let*`
frame still holds `x = 1`. -/
theorem let_star_sequential_and_shadowing :
    (eval_ 20 10 state0 shadowProgram 1).map (fun p => p.2) = .ok (.int 2)
    ∧ (eval_ 20 10 state0 shadowProgram 1).map
        (fun p => (p.1.frames[2]?).map Frame.table) = .ok (some [("x", .int 1)])
    ∧ (eval_ 20 10 state0 shadowProgram 1).map
        (fun p => (p.1.frames[3]?).map (fun fr => (fr.parent, fr.table)))
      = .ok (some (some 2, [("x", .int 2)]))
    ∧ (eval_ 20 10 state0 seqVisProgram 1).map (fun p => p.2) = .ok (.int 1) :=
  ⟨rfl, rfl, rfl, rfl⟩

/-- C10: evaluating `(do)` does not return nil: the `do` case rewrites the
working ast to the last element of the form — for the empty body the head
symbol `do` itself — so the loop next resolves `do` as a symbol, which no
frame of the bootstrap environment chain binds, and evaluation fails with
the unbound-symbol error. -/
theorem empty_do_fails_unbound :
    eval_ 20 10 state0 emptyDo 1 = .error (.unboundSymbol "do") := rfl

/-- C6: the `if` form.  Truthiness: every value except nil and boolean
false is truthy.  When the evaluated condition is truthy, evaluation
continues on the `then` expression (in tail position, same stack depth);
when falsy with an `else` present it continues on `else`; when falsy with
`else` absent the form returns nil. -/
theorem if_form_semantics :
    ∀ (g d : Nat) (st : EvalState) (c th el : MalType) (env : Nat)
      (st2 : EvalState) (v : MalType),
      eval_ g d st c env = .ok (st2, v) →
      (truthy v = true ↔ v ≠ .nil ∧ v ≠ .bool false)
      ∧ (truthy v = true →
          eval_ (g+1) (d+1) st (.list [.sym "if", c, th, el]) env
            = eval_ g (d+1) st2 th env
          ∧ eval_ (g+1) (d+1) st (.list [.sym "if", c, th]) env
            = eval_ g (d+1) st2 th env)
      ∧ (truthy v = false →
          eval_ (g+1) (d+1) st (.list [.sym "if", c, th, el]) env
            = eval_ g (d+1) st2 el env
          ∧ eval_ (g+1) (d+1) st (.list [.sym "if", c, th]) env
            = .ok (st2, .nil)) := by
  intro g d st c th el env st2 v hc
  refine ⟨?_, ?_, ?_⟩
  · cases v with
    | bool b => cases b <;> simp [truthy]
    | _ => simp [truthy]
  · intro ht
    constructor <;> simp [eval_, formName, hc, ht]
  · intro hf
    constructor <;> simp [eval_, formName, hc, hf]

/-- Witness for C6: a truthy non-boolean condition (the integer 7) selects
the `then` branch, and the falsy `false` with no `else` yields nil. -/
theorem if_form_semantics_witness :
    eval_ 6 6 state0 (.list [.sym "if", .int 7, .int 1, .int 2]) 1
      = eval_ 5 6 state0 (.int 1) 1
    ∧ eval_ 6 6 state0 (.list [.sym "if", .bool false, .int 1]) 1
      = .ok (state0, .nil) :=
  ⟨((if_form_semantics 5 5 state0 (.int 7) (.int 1) (.int 2) 1 state0
      (.int 7) rfl).2.1 rfl).1,
    ((if_form_semantics 5 5 state0 (.bool false) (.int 1) (.int 2) 1 state0
      (.bool false) rfl).2.2 rfl).2⟩

/-! ## Definitional step equations of the evaluator (each holds by `rfl`) -/

/-- A symbol form delegates to `eval_ast` one stack frame down. -/
theorem eval_sym_step (g d : Nat) (st : EvalState) (s : String) (env : Nat) :
    eval_ (g+1) (d+1) st (.sym s) env = eval_ast g d st (.sym s) env := rfl

/-- `eval_ast` resolves a symbol through the frame chain. -/
theorem eval_ast_sym_step (g d : Nat) (st : EvalState) (s : String) (env : Nat) :
    eval_ast (g+1) (d+1) st (.sym s) env
      = match envGet st.frames st.frames.length env s with
        | some v => .ok (st, v)
        | none => .error (.unboundSymbol s) := rfl

/-- An integer form delegates to `eval_ast`. -/
theorem eval_int_step (g d : Nat) (st : EvalState) (i : Int) (env : Nat) :
    eval_ (g+1) (d+1) st (.int i) env = eval_ast g d st (.int i) env := rfl

/-- An integer evaluates to itself. -/
theorem eval_ast_int_step (g d : Nat) (st : EvalState) (i : Int) (env : Nat) :
    eval_ast (g+1) (d+1) st (.int i) env = .ok (st, .int i) := rfl

/-- The `if` form with both branches: evaluate the condition one frame
down, then tail-continue (same depth) on the branch truthiness selects. -/
theorem eval_if3_step (g d : Nat) (st : EvalState) (c th el : MalType) (env : Nat) :
    eval_ (g+1) (d+1) st (.list [.sym "if", c, th, el]) env
      = match eval_ g d st c env with
        | .error err => .error err
        | .ok (st2, v) =>
            if truthy v then eval_ g (d+1) st2 th env
            else eval_ g (d+1) st2 el env := rfl

/-- A form headed by the symbol `loop` (no special form) is an application. -/
theorem eval_app_loop_step (g d : Nat) (st : EvalState) (rest : List MalType) (env : Nat) :
    eval_ (g+1) (d+1) st (.list (.sym "loop" :: rest)) env
      = applyStep g d st (.list (.sym "loop" :: rest)) env := rfl

/-- A form headed by the symbol `=` is an application. -/
theorem eval_app_eq_step (g d : Nat) (st : EvalState) (rest : List MalType) (env : Nat) :
    eval_ (g+1) (d+1) st (.list (.sym "=" :: rest)) env
      = applyStep g d st (.list (.sym "=" :: rest)) env := rfl

/-- A form headed by the symbol `-` is an application. -/
theorem eval_app_minus_step (g d : Nat) (st : EvalState) (rest : List MalType) (env : Nat) :
    eval_ (g+1) (d+1) st (.list (.sym "-" :: rest)) env
      = applyStep g d st (.list (.sym "-" :: rest)) env := rfl

/-- `eval_ast` on a list evaluates the elements into a new list. -/
theorem eval_ast_list_step (g d : Nat) (st : EvalState) (xs : List MalType) (env : Nat) :
    eval_ast (g+1) (d+1) st (.list xs) env
      = match evalSeq g d st xs env with
        | .error err => .error err
        | .ok (st2, ys) => .ok (st2, .list ys) := rfl

/-- Element-wise evaluation, one step. -/
theorem evalSeq_cons_step (g d : Nat) (st : EvalState) (x : MalType)
    (rest : List MalType) (env : Nat) :
    evalSeq (g+1) d st (x :: rest) env
      = match eval_ g d st x env with
        | .error err => .error err
        | .ok (st2, y) =>
          match evalSeq g d st2 rest env with
          | .error err => .error err
          | .ok (st3, ys) => .ok (st3, y :: ys) := rfl

/-- Element-wise evaluation of the empty tail. -/
theorem evalSeq_nil_step (g d : Nat) (st : EvalState) (env : Nat) :
    evalSeq (g+1) d st [] env = .ok (st, []) := rfl

/-! ## Environment-lookup shape lemmas for the loop store -/

/-- Resolution starting at the last frame of a store of the loop's shape:
consult that frame's table, then continue at its parent. -/
theorem envGet_last_frame (extra : List Frame) (fr : Frame) (s : String) :
    envGet (coreFrame :: replFrameLoop :: (extra ++ [fr]))
        (extra.length + 3) (extra.length + 2) s
      = match lookupTable fr.table s with
        | some v => some v
        | none =>
          match fr.parent with
          | none => none
          | some p =>
            envGet (coreFrame :: replFrameLoop :: (extra ++ [fr]))
              (extra.length + 2) p s := by
  conv_lhs => rw [envGet]
  simp only [List.getElem?_cons_succ, List.getElem?_concat_length]

/-- Resolution at the REPL frame (index 1): consult it, then the root. -/
theorem envGet_repl_frame (rest : List Frame) (hops : Nat) (s : String) :
    envGet (coreFrame :: replFrameLoop :: rest) (hops + 2) 1 s
      = match lookupTable replFrameLoop.table s with
        | some v => some v
        | none => envGet (coreFrame :: replFrameLoop :: rest) (hops + 1) 0 s := by
  conv_lhs => rw [envGet]
  simp only [List.getElem?_cons_succ, List.getElem?_cons_zero]
  rfl

/-- Resolution at the root frame (index 0, no parent): its table decides. -/
theorem envGet_core_frame (rest : List Frame) (hops : Nat) (s : String) :
    envGet (coreFrame :: rest) (hops + 1) 0 s = lookupTable coreFrame.table s := by
  conv_lhs => rw [envGet]
  simp only [List.getElem?_cons_zero]
  rcases h : lookupTable coreFrame.table s with _ | v <;> simp [h, coreFrame]

/-- In the loop's call frame, `n` resolves to the bound argument. -/
theorem lookup_n (extra : List Frame) (v : MalType) (s1 : Option Nat) :
    envGet (coreFrame :: replFrameLoop ::
        (extra ++ [{ parent := s1, table := [("n", v)] }]))
        (extra.length + 3) (extra.length + 2) "n" = some v := by
  rw [envGet_last_frame]
  simp [lookupTable]

/-- In the loop's call frame, `loop` resolves through the parent chain to
the closure bound in the REPL frame. -/
theorem lookup_loop (extra : List Frame) (v : MalType) :
    envGet (coreFrame :: replFrameLoop ::
        (extra ++ [{ parent := some 1, table := [("n", v)] }]))
        (extra.length + 3) (extra.length + 2) "loop" = some loopClosure := by
  rw [envGet_last_frame]
  simp only [lookupTable]
  rw [show extra.length + 2 = extra.length + 0 + 2 from rfl, envGet_repl_frame]
  simp [replFrameLoop, replFrame, lookupTable]

/-- In the loop's call frame, `=` resolves to the root-frame native. -/
theorem lookup_eq_sym (extra : List Frame) (v : MalType) :
    envGet (coreFrame :: replFrameLoop ::
        (extra ++ [{ parent := some 1, table := [("n", v)] }]))
        (extra.length + 3) (extra.length + 2) "=" = some (.fnNative "=") := by
  rw [envGet_last_frame]
  simp only [lookupTable]
  rw [show extra.length + 2 = extra.length + 0 + 2 from rfl, envGet_repl_frame]
  simp only [replFrameLoop, replFrame, lookupTable]
  norm_num
  rw [show extra.length + 0 + 1 = extra.length + 1 from rfl, envGet_core_frame]
  rfl

/-- In the loop's call frame, `-` resolves to the root-frame native. -/
theorem lookup_minus (extra : List Frame) (v : MalType) :
    envGet (coreFrame :: replFrameLoop ::
        (extra ++ [{ parent := some 1, table := [("n", v)] }]))
        (extra.length + 3) (extra.length + 2) "-" = some (.fnNative "-") := by
  rw [envGet_last_frame]
  simp only [lookupTable]
  rw [show extra.length + 2 = extra.length + 0 + 2 from rfl, envGet_repl_frame]
  simp only [replFrameLoop, replFrame, lookupTable]
  norm_num
  rw [show extra.length + 0 + 1 = extra.length + 1 from rfl, envGet_core_frame]
  rfl

/-- A successor integer is not `==` zero. -/
theorem natCast_succ_beq_zero (n : Nat) : (((n : Int) + 1) == 0) = false := by
  rw [beq_eq_false_iff_ne]
  omega

/-- Decrementing the successor argument. -/
theorem natCast_succ_sub_one (n : Nat) : ((n : Int) + 1) - 1 = (n : Int) := by
  ring

/-- Normalization bridge for the frame-count arithmetic. -/
theorem add_bridge_two (x : Nat) : x + 1 + 1 = x + 2 := rfl

/-- Normalization bridge for the frame-count arithmetic. -/
theorem add_bridge_three (x : Nat) : x + 2 + 1 = x + 3 := rfl

/-- Normalization bridge for the frame-count arithmetic. -/
theorem add_bridge_three' (x : Nat) : x + 1 + 2 = x + 3 := rfl

/-- The loop store has `extra.length + 3` frames. -/
theorem ls_len (extra : List Frame) (fid : Nat) (v : MalType) :
    (loopState extra fid v).frames.length = extra.length + 3 := by
  simp [loopState]

/-- `n` resolves in the call frame. -/
theorem lookupN_ls (extra : List Frame) (fid : Nat) (v : MalType) :
    envGet (loopState extra fid v).frames (extra.length + 3)
      (extra.length + 2) "n" = some v := by
  simp only [loopState, nFrame]
  exact lookup_n extra v (some 1)

/-- `loop` resolves through the parent chain to the REPL-frame closure. -/
theorem lookupLoop_ls (extra : List Frame) (fid : Nat) (v : MalType) :
    envGet (loopState extra fid v).frames (extra.length + 3)
      (extra.length + 2) "loop" = some loopClosure := by
  simp only [loopState, nFrame]
  exact lookup_loop extra v

/-- `=` resolves to the root-frame native. -/
theorem lookupEq_ls (extra : List Frame) (fid : Nat) (v : MalType) :
    envGet (loopState extra fid v).frames (extra.length + 3)
      (extra.length + 2) "=" = some (.fnNative "=") := by
  simp only [loopState, nFrame]
  exact lookup_eq_sym extra v

/-- `-` resolves to the root-frame native. -/
theorem lookupMinus_ls (extra : List Frame) (fid : Nat) (v : MalType) :
    envGet (loopState extra fid v).frames (extra.length + 3)
      (extra.length + 2) "-" = some (.fnNative "-") := by
  simp only [loopState, nFrame]
  exact lookup_minus extra v

/-- Application dispatch once the evaluated head is a native and the call
succeeds. -/
theorem applyStep_native_call (g d : Nat) (st st2 : EvalState) (ast : MalType)
    (env : Nat) (name : String) (args : List MalType) (v : MalType)
    (hast : eval_ast g d st ast env = .ok (st2, .list (.fnNative name :: args)))
    (hcall : callNative name args = .ok v) :
    applyStep g d st ast env = .ok (st2, v) := by
  simp [applyStep, hast, hcall]

/-- Application dispatch once the evaluated head is a closure: bind the
parameters in a new frame over the captured environment and tail-continue
into the body at the same depth. -/
theorem applyStep_closure (g d : Nat) (st st2 : EvalState) (ast : MalType)
    (env fnId cenv : Nat) (ps : List MalType) (body : MalType)
    (args : List MalType) (binds : List String)
    (hast : eval_ast g d st ast env
      = .ok (st2, .list (.fnMal fnId cenv ps body :: args)))
    (hsym : symNames ps = some binds) :
    applyStep g d st ast env
      = eval_ g (d+1) (pushFrame st2 (some cenv) (binds.zip args))
          body st2.frames.length := by
  simp [applyStep, hast, hsym]

/-- Evaluating the symbol `n` in an iteration state. -/
theorem evalN_ls (g d : Nat) (extra : List Frame) (fid : Nat) (v : MalType) :
    eval_ (g+2) (d+2) (loopState extra fid v) (.sym "n") (extra.length + 2)
      = .ok (loopState extra fid v, v) := by
  rw [eval_sym_step, eval_ast_sym_step, ls_len, lookupN_ls]

/-- Evaluating the symbol `=` in an iteration state. -/
theorem evalEq_ls (g d : Nat) (extra : List Frame) (fid : Nat) (v : MalType) :
    eval_ (g+2) (d+2) (loopState extra fid v) (.sym "=") (extra.length + 2)
      = .ok (loopState extra fid v, .fnNative "=") := by
  rw [eval_sym_step, eval_ast_sym_step, ls_len, lookupEq_ls]

/-- Evaluating the symbol `loop` in an iteration state. -/
theorem evalLoop_ls (g d : Nat) (extra : List Frame) (fid : Nat) (v : MalType) :
    eval_ (g+2) (d+2) (loopState extra fid v) (.sym "loop") (extra.length + 2)
      = .ok (loopState extra fid v, loopClosure) := by
  rw [eval_sym_step, eval_ast_sym_step, ls_len, lookupLoop_ls]

/-- Evaluating the symbol `-` in an iteration state. -/
theorem evalMinus_ls (g d : Nat) (extra : List Frame) (fid : Nat) (v : MalType) :
    eval_ (g+2) (d+2) (loopState extra fid v) (.sym "-") (extra.length + 2)
      = .ok (loopState extra fid v, .fnNative "-") := by
  rw [eval_sym_step, eval_ast_sym_step, ls_len, lookupMinus_ls]

/-- Evaluating an integer literal at any state. -/
theorem evalInt_any (g d : Nat) (st : EvalState) (i : Int) (env : Nat) :
    eval_ (g+2) (d+2) st (.int i) env = .ok (st, .int i) := by
  rw [eval_int_step, eval_ast_int_step]

/-- The elements of the condition `(= n 0)`, left to right. -/
theorem evalCondSeq_ls (g : Nat) (extra : List Frame) (fid : Nat) (x : Int) :
    evalSeq (g+6) 7 (loopState extra fid (.int x))
        [.sym "=", .sym "n", .int 0] (extra.length + 2)
      = .ok (loopState extra fid (.int x), [.fnNative "=", .int x, .int 0]) := by
  simp only [evalSeq_cons_step, evalSeq_nil_step, evalEq_ls, evalN_ls, evalInt_any]

/-- The condition `(= n 0)` evaluates to the boolean `x == 0`, without
touching the store. -/
theorem evalCond_ls (g : Nat) (extra : List Frame) (fid : Nat) (x : Int) :
    eval_ (g+8) 9 (loopState extra fid (.int x))
        (.list [.sym "=", .sym "n", .int 0]) (extra.length + 2)
      = .ok (loopState extra fid (.int x), .bool (x == 0)) := by
  rw [eval_app_eq_step]
  have hast : eval_ast (g+7) 8 (loopState extra fid (.int x))
      (.list [.sym "=", .sym "n", .int 0]) (extra.length + 2)
      = .ok (loopState extra fid (.int x),
          .list [.fnNative "=", .int x, .int 0]) := by
    rw [eval_ast_list_step, evalCondSeq_ls]
  exact applyStep_native_call _ _ _ _ _ _ _ _ _ hast rfl

/-- The argument `(- n 1)` evaluates to the decremented integer. -/
theorem evalMinusApp_ls (g : Nat) (extra : List Frame) (fid : Nat) (x : Int) :
    eval_ (g+7) 8 (loopState extra fid (.int x))
        (.list [.sym "-", .sym "n", .int 1]) (extra.length + 2)
      = .ok (loopState extra fid (.int x), .int (x - 1)) := by
  rw [eval_app_minus_step]
  have hast : eval_ast (g+6) 7 (loopState extra fid (.int x))
      (.list [.sym "-", .sym "n", .int 1]) (extra.length + 2)
      = .ok (loopState extra fid (.int x),
          .list [.fnNative "-", .int x, .int 1]) := by
    rw [eval_ast_list_step]
    simp only [evalSeq_cons_step, evalSeq_nil_step, evalMinus_ls, evalN_ls,
      evalInt_any]
  exact applyStep_native_call _ _ _ _ _ _ _ _ _ hast rfl

/-- The elements of the recursive call `(loop (- n 1))`: the closure and
the decremented argument. -/
theorem evalLoopArgsSeq_ls (g : Nat) (extra : List Frame) (fid : Nat) (x : Int) :
    evalSeq (g+9) 8 (loopState extra fid (.int x))
        [.sym "loop", .list [.sym "-", .sym "n", .int 1]] (extra.length + 2)
      = .ok (loopState extra fid (.int x), [loopClosure, .int (x - 1)]) := by
  simp only [evalSeq_cons_step, evalSeq_nil_step, evalLoop_ls, evalMinusApp_ls]

/-- `eval_ast` of the recursive call's whole form. -/
theorem evalLoopArgs_ls (g : Nat) (extra : List Frame) (fid : Nat) (x : Int) :
    eval_ast (g+10) 9 (loopState extra fid (.int x))
        (.list [.sym "loop", .list [.sym "-", .sym "n", .int 1]])
        (extra.length + 2)
      = .ok (loopState extra fid (.int x),
          .list [.fnMal 2 1 [.sym "n"] loopBody, .int (x - 1)]) := by
  rw [eval_ast_list_step, evalLoopArgsSeq_ls]
  rfl

/-- Pushing the next call frame turns one iteration state into the next:
the old call frame joins the garbage. -/
theorem pushFrame_ls (extra : List Frame) (fid : Nat) (v w : MalType) :
    pushFrame (loopState extra fid v) (some 1) [("n", w)]
      = loopState (extra ++ [nFrame v]) fid w := by
  simp [pushFrame, loopState, nFrame]

/-- A successor-cast integer is not `==` zero. -/
theorem succCast_beq_zero (n : Nat) : (((n+1 : Nat) : Int) == 0) = false := by
  rw [beq_eq_false_iff_ne]
  omega

/-- Decrementing the successor-cast argument. -/
theorem succCast_sub_one (n : Nat) : ((n+1 : Nat) : Int) - 1 = (n : Int) := by
  push_cast
  ring

theorem loop_body_runs : ∀ (n : Nat) (extra : List Frame) (fid : Nat),
    ∃ frames2 : List Frame,
      eval_ (2*n + 10) 10 (loopState extra fid (.int n)) loopBody
          (extra.length + 2)
        = .ok ({ frames := frames2, nextFnId := fid }, .int 0) := by
  intro n
  induction n with
  | zero =>
    intro extra fid
    refine ⟨(loopState extra fid (.int 0)).frames, ?_⟩
    rw [show loopBody = .list [.sym "if", .list [.sym "=", .sym "n", .int 0],
      .int 0, .list [.sym "loop", .list [.sym "-", .sym "n", .int 1]]] from rfl]
    rw [show ((0 : Nat) : Int) = (0 : Int) from rfl]
    rw [eval_if3_step, evalCond_ls 1 extra fid 0]
    simp only [beq_self_eq_true, truthy, if_true]
    rw [evalInt_any]
    rfl
  | succ n ih =>
    intro extra fid
    obtain ⟨frames2, h2⟩ := ih (extra ++ [nFrame (.int (n+1))]) fid
    refine ⟨frames2, ?_⟩
    rw [show loopBody = .list [.sym "if", .list [.sym "=", .sym "n", .int 0],
      .int 0, .list [.sym "loop", .list [.sym "-", .sym "n", .int 1]]] from rfl]
    rw [show 2*(n+1) + 10 = (2*n + 11) + 1 from by ring]
    rw [eval_if3_step]
    rw [show 2*n + 11 = (2*n + 3) + 8 from rfl, evalCond_ls]
    simp only [succCast_beq_zero, truthy, Bool.false_eq_true, if_false]
    rw [show (2*n + 3) + 8 = (2*n + 10) + 1 from rfl, eval_app_loop_step]
    rw [applyStep_closure (2*n + 10) 9 _ _ _ _ 2 1 [.sym "n"] loopBody
      [.int (((n+1 : Nat) : Int) - 1)] ["n"]
      (by rw [show 2*n + 10 = 2*n + 10 from rfl]; exact evalLoopArgs_ls (2*n) extra fid ((n+1 : Nat) : Int)) rfl]
    rw [succCast_sub_one]
    simp only [List.zip_cons_cons, List.zip_nil_right]
    rw [pushFrame_ls, ls_len]
    rw [show loopBody = .list [.sym "if", .list [.sym "=", .sym "n", .int 0],
      .int 0, .list [.sym "loop", .list [.sym "-", .sym "n", .int 1]]] from rfl] at h2
    simp only [List.length_append, List.length_singleton] at h2
    rw [show extra.length + 1 + 2 = extra.length + 3 from rfl] at h2
    exact h2

/-- Evaluating the symbol `loop` at the REPL frame after `loopDef`. -/
theorem evalLoopTop (g d : Nat) :
    eval_ (g+2) (d+2) stateLoop (.sym "loop") 1 = .ok (stateLoop, loopClosure) := by
  rw [eval_sym_step, eval_ast_sym_step]
  rfl

/-- C2: tail-call boundedness.  The canonical self-recursive closure
`(def! loop (fn* (n) (if (= n 0) 0 (loop (- n 1)))))`, whose recursive
call is the final expression of its `if` chain, completes `(loop n)` for
*every* iteration count n — in particular at least 100,000 — at the fixed
stack-depth budget 10: closure application rewrites the loop's (ast, env)
pair at unchanged depth (`eval_`'s TCO branch), so only the step budget
(the model artifact `2n + 11`) grows with n, never the stack. -/
theorem tail_recursion_runs_at_constant_depth :
    ∀ n : Nat, ∃ st2 : EvalState,
      eval_ (2*n + 11) 10 stateLoop (callLoop n) 1 = .ok (st2, .int 0) := by
  intro n
  obtain ⟨frames2, h2⟩ := loop_body_runs n [] 3
  refine ⟨{ frames := frames2, nextFnId := 3 }, ?_⟩
  have hast : eval_ast (2*n + 10) 9 stateLoop (.list [.sym "loop", .int n]) 1
      = .ok (stateLoop, .list [.fnMal 2 1 [.sym "n"] loopBody, .int n]) := by
    rw [eval_ast_list_step]
    simp only [evalSeq_cons_step, evalSeq_nil_step, evalLoopTop, evalInt_any]
    rfl
  rw [show callLoop n = .list [.sym "loop", .int n] from rfl]
  rw [show 2*n + 11 = (2*n + 10) + 1 from rfl, eval_app_loop_step]
  rw [applyStep_closure (2*n + 10) 9 _ _ _ _ 2 1 [.sym "n"] loopBody
    [.int n] ["n"] hast rfl]
  exact h2

/-- Sanity of the `stateLoop` constant: running the REPL line `loopDef` in
the bootstrap state yields exactly `stateLoop` and returns the closure
(`def!` returns the bound value). -/
theorem loopDef_builds_stateLoop :
    eval_ 20 10 state0 loopDef 1 = .ok (stateLoop, loopClosure) := rfl
